import Mathlib

/-!
Verification development for the databricks-mcp repository.

The repository has two layers:
* `databricks_mcp_core/spark_declarative_pipelines/pipelines.py` — pure
  request-building logic around the remote Pipelines API (`create_pipeline`,
  `update_pipeline`, `start_update`, `get_pipeline_events`, ...).
* `databricks_mcp_server` — pydantic input models (`models/*.py`) and MCP tool
  handlers (`tools/*.py`) that validate an untyped argument mapping, call the
  core layer, and wrap every outcome into a response envelope.

The embedding below models the outgoing remote request of each operation as an
explicit record (a kwargs key that is absent from the Python call is modelled
as `none`), models the argument mapping of a tool call as a function
`String → Option PyValue`, and models each handler's try/except boundary as a
total function into `ResponseEnvelope` whose collaborator is an explicit
`Except`-valued parameter (a raised collaborator exception is `Except.error`).
-/

/-- Python truthiness of an optional string: `None` and `""` are falsy.
This is the test `if x:` applied to an `Optional[str]` argument. -/
def pyStrTruthy : Option String → Bool
  | none => false
  | some s => !(s == "")

/-- Python truthiness of an optional list: `None` and `[]` are falsy. -/
def pyListTruthy : Option (List String) → Bool
  | none => false
  | some l => !(l == [])

/-- Python `repr` of a bool as interpolated by an f-string. -/
def pyBoolStr (b : Bool) : String :=
  if b then "True" else "False"

/-- Python `str.strip()`: drop leading and trailing whitespace.  Implemented
over the character list so it evaluates inside the kernel; ASCII whitespace
covers every string any claim touches. -/
def pyStrip (s : String) : String :=
  ⟨((s.toList.dropWhile Char.isWhitespace).reverse.dropWhile Char.isWhitespace).reverse⟩

/-- Python `str.endswith(suffix)`: suffix test on the character list. -/
def pyEndsWith (s suffix : String) : Bool :=
  List.isSuffixOf suffix.toList s.toList

/-- `databricks.sdk.service.pipelines.NotebookLibrary` (only the `path` field
is ever set by this repository). -/
structure NotebookLibrary where
  path : String
deriving Repr, DecidableEq

/-- `databricks.sdk.service.pipelines.PipelineLibrary` (only the `notebook`
variant is ever built by this repository). -/
structure PipelineLibrary where
  notebook : NotebookLibrary
deriving Repr, DecidableEq

/-- The keyword arguments of the remote call `w.pipelines.create(...)` issued
by `create_pipeline` (pipelines.py lines 59-66). -/
structure CreateRequest where
  name : String
  storage : String
  target : String
  libraries : List PipelineLibrary
  continuous : Bool
  serverless : Bool
deriving Repr, DecidableEq

/-- `create_pipeline` (pipelines.py lines 20-66): builds the libraries from
the notebook paths and submits with `continuous=False` and
`target = f"{catalog}.{schema}"`. -/
def create_pipeline (name root_path catalog schema : String)
    (workspace_notebook_paths : List String) (serverless : Bool) : CreateRequest :=
  { name := name
    storage := root_path
    target := catalog ++ "." ++ schema
    libraries := workspace_notebook_paths.map (fun p => ⟨⟨p⟩⟩)
    continuous := false
    serverless := serverless }

/-- The keyword arguments of the remote call `w.pipelines.update(**kwargs)`
issued by `update_pipeline` (pipelines.py line 131).  A field that is `none`
models a key that is absent from `kwargs` and hence absent from the outgoing
request. -/
structure UpdateRequest where
  pipeline_id : String
  name : Option String
  storage : Option String
  target : Option String
  libraries : Option (List PipelineLibrary)
  serverless : Option Bool
deriving Repr, DecidableEq

/-- `update_pipeline` (pipelines.py lines 86-131): kwargs are built
conditionally — `if name:`, `if root_path:`, `if catalog and schema:`,
`if workspace_notebook_paths:` (Python truthiness), and
`if serverless is not None:`. -/
def update_pipeline (pipeline_id : String)
    (name root_path catalog schema : Option String)
    (workspace_notebook_paths : Option (List String))
    (serverless : Option Bool) : UpdateRequest :=
  { pipeline_id := pipeline_id
    name := if pyStrTruthy name then name else none
    storage := if pyStrTruthy root_path then root_path else none
    target :=
      match catalog, schema with
      | some c, some s =>
          if !(c == "") && !(s == "") then some (c ++ "." ++ s) else none
      | _, _ => none
    libraries :=
      match workspace_notebook_paths with
      | some l => if !(l == []) then some (l.map (fun p => ⟨⟨p⟩⟩)) else none
      | none => none
    serverless := serverless }

/-- The keyword arguments of the remote call `w.pipelines.start_update(...)`
issued by `start_update` (pipelines.py lines 174-180). -/
structure StartUpdateRequest where
  pipeline_id : String
  refresh_selection : Option (List String)
  full_refresh : Bool
  full_refresh_selection : Option (List String)
  validate_only : Bool
deriving Repr, DecidableEq

/-- `start_update` (pipelines.py lines 148-182): passes every argument through
to the remote call unchanged. -/
def start_update (pipeline_id : String) (refresh_selection : Option (List String))
    (full_refresh : Bool) (full_refresh_selection : Option (List String))
    (validate_only : Bool) : StartUpdateRequest :=
  { pipeline_id := pipeline_id
    refresh_selection := refresh_selection
    full_refresh := full_refresh
    full_refresh_selection := full_refresh_selection
    validate_only := validate_only }

/-- A JSON-shaped value appearing in a tool-call argument mapping.  Only the
shapes actually accepted by the input models of this repository are modelled;
the validation library's lax numeric coercions (e.g. `1` accepted for a bool
field) are outside the behaviour any claim depends on and are not modelled. -/
inductive PyValue where
  | str (s : String)
  | bool (b : Bool)
  | strList (l : List String)
  | null
deriving Repr, DecidableEq

/-- An argument mapping as received by a tool handler: a Python dict from key
to value, modelled as a partial function. -/
def ArgMap : Type := String → Option PyValue

/-- One entry of `pydantic.ValidationError.errors()`: location path, message,
and violated-constraint kind, as read by `MCPValidationError.to_mcp_response`
(base.py lines 19-24). -/
structure FieldError where
  loc : List String
  msg : String
  type : String
deriving Repr, DecidableEq

/-- One displayable segment of a tool response (`{"type": "text", ...}`). -/
structure TextContent where
  type : String
  text : String
deriving Repr, DecidableEq

/-- The response envelope returned by every tool handler.  `isError = none`
models a Python dict without the `isError` key (the success shape);
`isError = some true` models `"isError": True`. -/
structure ResponseEnvelope where
  content : List TextContent
  isError : Option Bool
deriving Repr, DecidableEq

/-- `MCPValidationError.to_mcp_response` (base.py lines 17-32): formats the
accumulated field errors as an itemized bullet list and sets `isError`. -/
def MCPValidationError.to_mcp_response (errors : List FieldError) : ResponseEnvelope :=
  { content := [⟨"text", "❌ Validation Error:\n" ++
      String.intercalate "\n" (errors.map (fun e =>
        "  - " ++ String.intercalate "." e.loc ++ ": " ++ e.msg ++
        " (type: " ++ e.type ++ ")"))⟩]
    isError := some true }

/-- Field validation of a required `str` field: missing key or non-string
value is a field error; `str_strip_whitespace = True` (base.py line 42) trims
the accepted string. -/
def parseReqStr (args : ArgMap) (k : String) : Except FieldError String :=
  match args k with
  | none => .error ⟨[k], "Field required", "missing"⟩
  | some (.str s) => .ok (pyStrip s)
  | some _ => .error ⟨[k], "Input should be a valid string", "string_type"⟩

/-- Field validation of an `Optional[str]` field with default `None`:
missing key or explicit null yields `None`; a string is trimmed. -/
def parseOptStr (args : ArgMap) (k : String) : Except FieldError (Option String) :=
  match args k with
  | none => .ok none
  | some .null => .ok none
  | some (.str s) => .ok (some (pyStrip s))
  | some _ => .error ⟨[k], "Input should be a valid string", "string_type"⟩

/-- Field validation of an `Optional[List[str]]` field with default `None`. -/
def parseOptStrList (args : ArgMap) (k : String) :
    Except FieldError (Option (List String)) :=
  match args k with
  | none => .ok none
  | some .null => .ok none
  | some (.strList l) => .ok (some (l.map pyStrip))
  | some _ => .error ⟨[k], "Input should be a valid list", "list_type"⟩

/-- Field validation of an `Optional[bool]` field with default `None`. -/
def parseOptBool (args : ArgMap) (k : String) : Except FieldError (Option Bool) :=
  match args k with
  | none => .ok none
  | some .null => .ok none
  | some (.bool b) => .ok (some b)
  | some _ => .error ⟨[k], "Input should be a valid boolean", "bool_type"⟩

/-- Field validation of a `bool` field with a literal default. -/
def parseBoolDefault (args : ArgMap) (k : String) (default : Bool) :
    Except FieldError Bool :=
  match args k with
  | none => .ok default
  | some (.bool b) => .ok b
  | some _ => .error ⟨[k], "Input should be a valid boolean", "bool_type"⟩

/-- The errors contributed by one field result (empty when the field
validated). -/
def fieldErrs {α : Type} : Except FieldError α → List FieldError
  | .ok _ => []
  | .error e => [e]

/-- `UpdatePipelineInput` (models/pipelines.py lines 34-48): `pipeline_id`
required, every other field optional with default `None`. -/
structure UpdatePipelineInput where
  pipeline_id : String
  name : Option String
  root_path : Option String
  catalog : Option String
  schema : Option String
  workspace_notebook_paths : Option (List String)
  serverless : Option Bool
deriving Repr, DecidableEq

/-- Construction of `UpdatePipelineInput(**arguments)`: pydantic validates
every field, accumulating all violations; unknown keys are ignored
(`extra="ignore"`, base.py line 39). -/
def UpdatePipelineInput.parse (args : ArgMap) :
    Except (List FieldError) UpdatePipelineInput :=
  match parseReqStr args "pipeline_id", parseOptStr args "name",
      parseOptStr args "root_path", parseOptStr args "catalog",
      parseOptStr args "schema",
      parseOptStrList args "workspace_notebook_paths",
      parseOptBool args "serverless" with
  | .ok pid, .ok n, .ok rp, .ok c, .ok s, .ok w, .ok sv =>
      .ok ⟨pid, n, rp, c, s, w, sv⟩
  | rp', rn, rr, rc, rs, rw, rv =>
      .error (fieldErrs rp' ++ fieldErrs rn ++ fieldErrs rr ++ fieldErrs rc ++
        fieldErrs rs ++ fieldErrs rw ++ fieldErrs rv)

/-- `StartPipelineUpdateInput` (models/pipelines.py lines 56-61). -/
structure StartPipelineUpdateInput where
  pipeline_id : String
  refresh_selection : Option (List String)
  full_refresh : Bool
  full_refresh_selection : Option (List String)
deriving Repr, DecidableEq

/-- Construction of `StartPipelineUpdateInput(**arguments)`; note the model
declares no `validate_only` field, so such a key in the mapping is an unknown
field and is ignored. -/
def StartPipelineUpdateInput.parse (args : ArgMap) :
    Except (List FieldError) StartPipelineUpdateInput :=
  match parseReqStr args "pipeline_id",
      parseOptStrList args "refresh_selection",
      parseBoolDefault args "full_refresh" false,
      parseOptStrList args "full_refresh_selection" with
  | .ok pid, .ok rs, .ok fr, .ok frs => .ok ⟨pid, rs, fr, frs⟩
  | rp', rr, rf, rs' =>
      .error (fieldErrs rp' ++ fieldErrs rr ++ fieldErrs rf ++ fieldErrs rs')

/-- `ValidatePipelineInput` (models/pipelines.py lines 64-69): the same field
set as `StartPipelineUpdateInput`. -/
structure ValidatePipelineInput where
  pipeline_id : String
  refresh_selection : Option (List String)
  full_refresh : Bool
  full_refresh_selection : Option (List String)
deriving Repr, DecidableEq

/-- Construction of `ValidatePipelineInput(**arguments)`. -/
def ValidatePipelineInput.parse (args : ArgMap) :
    Except (List FieldError) ValidatePipelineInput :=
  match parseReqStr args "pipeline_id",
      parseOptStrList args "refresh_selection",
      parseBoolDefault args "full_refresh" false,
      parseOptStrList args "full_refresh_selection" with
  | .ok pid, .ok rs, .ok fr, .ok frs => .ok ⟨pid, rs, fr, frs⟩
  | rp', rr, rf, rs' =>
      .error (fieldErrs rp' ++ fieldErrs rr ++ fieldErrs rf ++ fieldErrs rs')

/-- The update request the tool `update_pipeline_config` hands to the remote
platform for a given argument mapping: the validated input's fields are passed
to `pipelines.update_pipeline`
(tools/spark_declarative_pipelines.py lines 114-124). -/
def update_tool_request (args : ArgMap) : Except (List FieldError) UpdateRequest :=
  (UpdatePipelineInput.parse args).map (fun i =>
    update_pipeline i.pipeline_id i.name i.root_path i.catalog i.schema
      i.workspace_notebook_paths i.serverless)

/-- `update_pipeline_config_tool` (tools/spark_declarative_pipelines.py lines
111-146).  The collaborator parameter models `w.pipelines.update`; a raised
`DatabricksError` is an `Except.error` carrying `str(e)`. -/
def update_pipeline_config_tool (args : ArgMap)
    (collab : UpdateRequest → Except String Unit) : ResponseEnvelope :=
  match UpdatePipelineInput.parse args with
  | .error es => MCPValidationError.to_mcp_response es
  | .ok i =>
      match collab (update_pipeline i.pipeline_id i.name i.root_path i.catalog
          i.schema i.workspace_notebook_paths i.serverless) with
      | .ok _ =>
          { content := [⟨"text",
              "✅ Pipeline configuration updated successfully!\n\nPipeline ID: " ++
              i.pipeline_id⟩]
            isError := none }
      | .error msg =>
          { content := [⟨"text", "❌ Error updating pipeline: " ++ msg⟩]
            isError := some true }

/-- The start-update request the tool `start_pipeline_update` hands to the
remote platform: `validate_only=False` is hard-coded
(tools/spark_declarative_pipelines.py lines 182-188). -/
def start_pipeline_update_tool_request (args : ArgMap) :
    Except (List FieldError) StartUpdateRequest :=
  (StartPipelineUpdateInput.parse args).map (fun i =>
    start_update i.pipeline_id i.refresh_selection i.full_refresh
      i.full_refresh_selection false)

/-- The start-update request the tool `validate_pipeline` hands to the remote
platform: `validate_only=True` is hard-coded
(tools/spark_declarative_pipelines.py lines 219-225). -/
def validate_pipeline_tool_request (args : ArgMap) :
    Except (List FieldError) StartUpdateRequest :=
  (ValidatePipelineInput.parse args).map (fun i =>
    start_update i.pipeline_id i.refresh_selection i.full_refresh
      i.full_refresh_selection true)

/-- Success message of `start_pipeline_update_tool`
(tools/spark_declarative_pipelines.py lines 194-198). -/
def start_update_success_text (pid update_id : String) (full_refresh : Bool) : String :=
  "✅ Pipeline update started!\n\nPipeline ID: " ++ pid ++
  "\nUpdate ID: " ++ update_id ++
  "\nFull Refresh: " ++ pyBoolStr full_refresh ++
  "\n\nUse get_pipeline_update_status to poll."

/-- Success message of `validate_pipeline_tool`
(tools/spark_declarative_pipelines.py lines 231-234). -/
def validate_pipeline_success_text (pid update_id : String) : String :=
  "✅ Pipeline validation started (dry-run mode)!\n\nPipeline ID: " ++ pid ++
  "\nUpdate ID: " ++ update_id ++
  "\n\nUse get_pipeline_update_status to check results."

/-- The emoji chosen per update state by `get_pipeline_update_status_tool`
(tools/spark_declarative_pipelines.py lines 263-269). -/
def state_emoji (state : String) : String :=
  if state = "QUEUED" then "⏳"
  else if state = "RUNNING" then "🔄"
  else if state = "COMPLETED" then "✅"
  else if state = "FAILED" then "❌"
  else if state = "CANCELED" then "🚫"
  else "❓"

/-- The message rendered by `get_pipeline_update_status_tool` for a status
poll (tools/spark_declarative_pipelines.py lines 271-282).  Note the handler
receives only `pipeline_id`, `update_id` and the polled status: it has no
dry-run information, so a completed dry run and a completed refresh are
rendered by this same function. -/
def update_status_text (state pid update_id full_status : String) : String :=
  state_emoji state ++ " Pipeline Update Status\n\nState: " ++ state ++
  "\nPipeline ID: " ++ pid ++
  "\nUpdate ID: " ++ update_id ++
  "\n\nFull status:\n" ++ full_status

/-- A pipeline event as read by `get_pipeline_events_tool`: only `event_type`
is inspected for classification (the remaining SDK fields are never read by
the classification logic). -/
structure PipelineEvent where
  event_type : Option String
deriving Repr, DecidableEq

/-- Whether an event is counted as an error by `get_pipeline_events_tool`
(tools/spark_declarative_pipelines.py lines 335-338):
`e.event_type and e.event_type.endswith("_failed")`. -/
def event_is_error (e : PipelineEvent) : Bool :=
  match e.event_type with
  | some s => !(s == "") && pyEndsWith s "_failed"
  | none => false

/-- The `(Total Events, Error Events)` counts reported by
`get_pipeline_events_tool` (tools/spark_declarative_pipelines.py lines
333-338). -/
def classify (events : List PipelineEvent) : Nat × Nat :=
  (events.length, events.countP event_is_error)

/-- The spec's characterization of an error event, stated from the spec's
words for comparison with `event_is_error`: the `event_type` string ends with
the literal suffix `_failed`. -/
def spec_error_event (e : PipelineEvent) : Bool :=
  match e.event_type with
  | some s => pyEndsWith s "_failed"
  | none => false

/-- `UpdateCatalogInput` after validation (models/unity_catalog.py lines
28-39). -/
structure UpdateCatalogInput where
  catalog_name : String
  new_name : Option String
  comment : Option String
deriving Repr, DecidableEq

/-- The cross-field model validator of `UpdateCatalogInput`
(models/unity_catalog.py lines 34-39): `if not any([new_name, comment])`
raises, where `None` and the (whitespace-stripped) empty string are falsy.
The raised `ValueError` surfaces as a pydantic error with empty location and
kind `value_error`. -/
def UpdateCatalogInput.validate (catalog_name : String)
    (new_name comment : Option String) :
    Except (List FieldError) UpdateCatalogInput :=
  let nn := new_name.map pyStrip
  let cm := comment.map pyStrip
  if !(pyStrTruthy nn || pyStrTruthy cm) then
    .error [⟨[], "Value error, At least one of \x27new_name\x27 or \x27comment\x27 must be provided",
      "value_error"⟩]
  else
    .ok ⟨pyStrip catalog_name, nn, cm⟩

/-- `UpdateSchemaInput` after validation (models/unity_catalog.py lines
61-73). -/
structure UpdateSchemaInput where
  catalog_name : String
  schema_name : String
  new_name : Option String
  comment : Option String
deriving Repr, DecidableEq

/-- The cross-field model validator of `UpdateSchemaInput`
(models/unity_catalog.py lines 68-73), identical in logic to the catalog
one. -/
def UpdateSchemaInput.validate (catalog_name schema_name : String)
    (new_name comment : Option String) :
    Except (List FieldError) UpdateSchemaInput :=
  let nn := new_name.map pyStrip
  let cm := comment.map pyStrip
  if !(pyStrTruthy nn || pyStrTruthy cm) then
    .error [⟨[], "Value error, At least one of \x27new_name\x27 or \x27comment\x27 must be provided",
      "value_error"⟩]
  else
    .ok ⟨pyStrip catalog_name, pyStrip schema_name, nn, cm⟩

/-- `TableTypeEnum` (models/common.py lines 14-17). -/
inductive TableTypeEnum where
  | MANAGED
  | EXTERNAL
deriving Repr, DecidableEq

/-- `ColumnModel` (models/common.py lines 35-47): name, type name, optional
comment. -/
structure ColumnModel where
  name : String
  type_name : String
  comment : Option String
deriving Repr, DecidableEq

/-- `CreateTableInput` after validation (models/unity_catalog.py lines
90-111). -/
structure CreateTableInput where
  catalog_name : String
  schema_name : String
  table_name : String
  columns : List ColumnModel
  table_type : TableTypeEnum
  comment : Option String
  storage_location : Option String
deriving Repr, DecidableEq

/-- Validation of `CreateTableInput`: pydantic first checks the field
constraint `columns: min_length=1`, then runs the cross-field model validator
`validate_external_storage` (models/unity_catalog.py lines 106-111):
`if table_type == EXTERNAL and not storage_location` raises, where `None` and
the (whitespace-stripped) empty string are falsy. -/
def CreateTableInput.validate (catalog_name schema_name table_name : String)
    (columns : List ColumnModel) (table_type : TableTypeEnum)
    (comment storage_location : Option String) :
    Except (List FieldError) CreateTableInput :=
  if columns.length < 1 then
    .error [⟨["columns"], "List should have at least 1 item after validation, not 0",
      "too_short"⟩]
  else
    let sl := storage_location.map pyStrip
    if table_type = TableTypeEnum.EXTERNAL && !(pyStrTruthy sl) then
      .error [⟨[], "Value error, storage_location is required for EXTERNAL tables",
        "value_error"⟩]
    else
      .ok ⟨pyStrip catalog_name, pyStrip schema_name, pyStrip table_name, columns,
        table_type, comment.map pyStrip, sl⟩

/-- Whether an `Except` value is a success. -/
def exceptOk {ε α : Type} : Except ε α → Bool
  | .ok _ => true
  | .error _ => false

/-- A schema record as read by `get_schema_tool` for rendering (the fields of
the collaborator's `SchemaInfo` that the handler displays). -/
structure SchemaInfo where
  name : String
  full_name : String
  catalog_name : String
  owner : String
  comment : Option String
  created_at : Option String
  updated_at : Option String
  storage_location : Option String
deriving Repr, DecidableEq

/-- The body text built by `get_schema_tool` on success
(tools/unity_catalog.py lines 114-124); `schema.comment or 'N/A'` falls back
on a falsy comment, and the trailing lines are appended only when the
corresponding attribute is truthy. -/
def render_schema (s : SchemaInfo) : String :=
  "📁 Schema: " ++ s.name ++ "\n" ++
  "   Full Name: " ++ s.full_name ++ "\n" ++
  "   Catalog: " ++ s.catalog_name ++ "\n" ++
  "   Owner: " ++ s.owner ++ "\n" ++
  "   Comment: " ++ (if pyStrTruthy s.comment then s.comment.getD "" else "N/A") ++ "\n" ++
  (if pyStrTruthy s.created_at then "   Created: " ++ s.created_at.getD "" ++ "\n" else "") ++
  (if pyStrTruthy s.updated_at then "   Updated: " ++ s.updated_at.getD "" ++ "\n" else "") ++
  (if pyStrTruthy s.storage_location then
    "   Storage Location: " ++ s.storage_location.getD "" ++ "\n" else "")

/-- `get_schema_tool` (tools/unity_catalog.py lines 110-130): no input model
is constructed; `arguments.get("full_schema_name")` is passed straight to the
collaborator, and any exception is caught by the bare `except Exception`
boundary and converted to an error envelope. -/
def get_schema_tool (args : ArgMap)
    (collab : Option PyValue → Except String SchemaInfo) : ResponseEnvelope :=
  match collab (args "full_schema_name") with
  | .ok s => { content := [⟨"text", render_schema s⟩], isError := none }
  | .error msg =>
      { content := [⟨"text", "Error: " ++ msg⟩], isError := some true }

/-- Whether `pre` is a prefix of the second list (character lists of
strings). -/
def listIsPrefix : List Char → List Char → Bool
  | [], _ => true
  | _ :: _, [] => false
  | a :: as, b :: bs => a == b && listIsPrefix as bs

/-- Whether `needle` occurs as a contiguous substring of the haystack. -/
def hasSubstr (needle : List Char) : List Char → Bool
  | [] => listIsPrefix needle []
  | c :: rest => listIsPrefix needle (c :: rest) || hasSubstr needle rest

/-- Substring containment on strings, used to state what it would mean for a
handler message to report a result "as" some wording. -/
def strContains (hay needle : String) : Bool :=
  hasSubstr needle.toList hay.toList

/-- Claim C8: for every pipeline-creation input, the create operation submits
in triggered (non-continuous) mode — the `continuous` flag sent to the remote
platform is `false` regardless of the caller's arguments — and the `target`
sent is the composite string `catalog.schema`. -/
theorem c8_create_triggered_and_target (name root_path catalog schema : String)
    (workspace_notebook_paths : List String) (serverless : Bool) :
    (create_pipeline name root_path catalog schema workspace_notebook_paths
        serverless).continuous = false
    ∧ (create_pipeline name root_path catalog schema workspace_notebook_paths
        serverless).target = catalog ++ "." ++ schema := by
  exact ⟨rfl, rfl⟩

/-- Claim C1: partial-update frame property.  For every call to
`update_pipeline`, every omitted (`None`) field is absent from the outgoing
request, so only supplied fields are sent; and the concrete scenario
`update(pid, {name: "new"})` sends `name` (and `pipeline_id`) only, leaving
storage, target, libraries and serverless absent from the request. -/
theorem c1_partial_update_frame (pid : String)
    (name root_path catalog schema : Option String)
    (wnp : Option (List String)) (serverless : Option Bool) :
    (name = none →
      (update_pipeline pid name root_path catalog schema wnp serverless).name = none)
    ∧ (root_path = none →
      (update_pipeline pid name root_path catalog schema wnp serverless).storage = none)
    ∧ ((catalog = none ∨ schema = none) →
      (update_pipeline pid name root_path catalog schema wnp serverless).target = none)
    ∧ (wnp = none →
      (update_pipeline pid name root_path catalog schema wnp serverless).libraries = none)
    ∧ (serverless = none →
      (update_pipeline pid name root_path catalog schema wnp serverless).serverless = none)
    ∧ update_pipeline pid (some "new") none none none none none =
        { pipeline_id := pid, name := some "new", storage := none, target := none,
          libraries := none, serverless := none } := by
  refine ⟨fun h => ?_, fun h => ?_, fun h => ?_, fun h => ?_, fun h => ?_, rfl⟩
  · subst h; rfl
  · subst h; rfl
  · rcases h with h | h
    · subst h; rfl
    · subst h; cases catalog <;> rfl
  · subst h; rfl
  · subst h; rfl

/-- Witness for C1: the frame property applied at a concrete call that
supplies only the name. -/
theorem c1_partial_update_frame_witness :
    (update_pipeline "p1" (some "new") none none none none none).storage = none
    ∧ (update_pipeline "p1" (some "new") none none none none none).target = none
    ∧ (update_pipeline "p1" (some "new") none none none none none).libraries = none
    ∧ (update_pipeline "p1" (some "new") none none none none none).serverless = none := by
  have h := c1_partial_update_frame "p1" (some "new") none none none none none
  exact ⟨h.2.1 rfl, h.2.2.1 (Or.inl rfl), h.2.2.2.1 rfl, h.2.2.2.2.1 rfl⟩

/-- Claim C10: field presence in `update_pipeline` is decided by Python
truthiness for `name`, `root_path`, `catalog`, `schema` and
`workspace_notebook_paths` — supplying the empty string (or the empty list)
produces exactly the same request as omitting the field — while `serverless`
is tested with `is not None`, so `serverless = False` is sent, and a supplied
`name` is sent iff it is non-empty (so `name = ""` can never be sent). -/
theorem c10_truthiness_field_presence (pid : String)
    (name root_path catalog schema : Option String)
    (wnp : Option (List String)) (serverless : Option Bool) (s : String) :
    update_pipeline pid (some "") root_path catalog schema wnp serverless =
      update_pipeline pid none root_path catalog schema wnp serverless
    ∧ update_pipeline pid name (some "") catalog schema wnp serverless =
      update_pipeline pid name none catalog schema wnp serverless
    ∧ update_pipeline pid name root_path (some "") schema wnp serverless =
      update_pipeline pid name root_path none schema wnp serverless
    ∧ update_pipeline pid name root_path catalog (some "") wnp serverless =
      update_pipeline pid name root_path catalog none wnp serverless
    ∧ update_pipeline pid name root_path catalog schema (some []) serverless =
      update_pipeline pid name root_path catalog schema none serverless
    ∧ (update_pipeline pid name root_path catalog schema wnp (some false)).serverless
        = some false
    ∧ (update_pipeline pid (some s) root_path catalog schema wnp serverless).name
        = (if s = "" then none else some s) := by
  refine ⟨?_, ?_, ?_, ?_, ?_, rfl, ?_⟩
  · rfl
  · rfl
  · simp only [update_pipeline]
    cases schema <;> rfl
  · simp only [update_pipeline]
    cases catalog <;> simp
  · rfl
  · simp only [update_pipeline, pyStrTruthy]
    by_cases h : s = "" <;> simp [h]

/-- The two error-event predicates agree on every event: the truthiness guard
in the code only excludes the empty string, which does not end in `_failed`
anyway. -/
theorem event_is_error_eq_spec (e : PipelineEvent) :
    event_is_error e = spec_error_event e := by
  rcases e with ⟨et⟩
  cases et with
  | none => rfl
  | some s =>
    simp only [event_is_error, spec_error_event]
    by_cases h : s = ""
    · subst h; decide
    · simp [h]

/-- Claim C5: for every sequence of pipeline events, the reported error count
equals the number of events whose `event_type` string ends with the literal
suffix `_failed`, the reported total equals the sequence length, and the
three-event example yields total 3 and error count 2. -/
theorem c5_event_classification (events : List PipelineEvent) :
    (classify events).1 = events.length
    ∧ (classify events).2 = (events.filter spec_error_event).length
    ∧ classify [⟨some "flow_failed"⟩, ⟨some "flow_progress"⟩, ⟨some "update_failed"⟩]
        = (3, 2) := by
  refine ⟨rfl, ?_, by decide⟩
  have h : event_is_error = spec_error_event := funext event_is_error_eq_spec
  simp [classify, h, List.countP_eq_length_filter]

/-- Claim C6: for the schema/catalog update contracts, when `new_name` and
`comment` are both absent the cross-field validator fails with the
"at least one of" violation and no command is produced. -/
theorem c6_update_requires_new_name_or_comment (catalog_name schema_name : String) :
    UpdateCatalogInput.validate catalog_name none none =
      .error [⟨[], "Value error, At least one of \x27new_name\x27 or \x27comment\x27 must be provided",
        "value_error"⟩]
    ∧ UpdateSchemaInput.validate catalog_name schema_name none none =
      .error [⟨[], "Value error, At least one of \x27new_name\x27 or \x27comment\x27 must be provided",
        "value_error"⟩] :=
  ⟨rfl, rfl⟩

/-- Counterexample to claim C7: an EXTERNAL table-creation input whose
`storage_location` is present (the key is supplied, with value `""`) and
whose every other constraint holds (one column, all required names supplied)
is nonetheless rejected, because the cross-field validator tests Python
truthiness — so "present implies validation succeeds" is false as stated. -/
theorem c7_counterexample_external_empty_storage_location :
    CreateTableInput.validate "main" "sales" "t1" [⟨"id", "INT", none⟩]
        TableTypeEnum.EXTERNAL none (some "") =
      .error [⟨[], "Value error, storage_location is required for EXTERNAL tables",
        "value_error"⟩] :=
  rfl

/-- Claim C7 as amended: for EXTERNAL table creation, an omitted
`storage_location` always fails validation; a supplied `storage_location`
that is non-empty after whitespace stripping (with at least one column)
validates and produces the command. -/
theorem c7_external_storage_amended (catalog_name schema_name table_name : String)
    (columns : List ColumnModel) (comment storage_location : Option String) :
    exceptOk (CreateTableInput.validate catalog_name schema_name table_name columns
        TableTypeEnum.EXTERNAL comment none) = false
    ∧ (columns.length ≥ 1 →
        pyStrTruthy (storage_location.map pyStrip) = true →
        CreateTableInput.validate catalog_name schema_name table_name columns
            TableTypeEnum.EXTERNAL comment storage_location =
          .ok ⟨pyStrip catalog_name, pyStrip schema_name, pyStrip table_name,
            columns, TableTypeEnum.EXTERNAL, comment.map pyStrip,
            storage_location.map pyStrip⟩) := by
  constructor
  · by_cases h : columns.length < 1
    · simp [CreateTableInput.validate, h, exceptOk]
    · simp [CreateTableInput.validate, h, exceptOk, pyStrTruthy]
  · intro h1 h2
    have h : ¬ columns.length < 1 := by omega
    simp [CreateTableInput.validate, h, h2]

/-- Witness for the amended C7: a concrete EXTERNAL creation with a non-empty
storage location validates. -/
theorem c7_external_storage_amended_witness :
    CreateTableInput.validate "main" "sales" "t1" [⟨"id", "INT", none⟩]
        TableTypeEnum.EXTERNAL none (some "s3://bucket/tables/t1") =
      .ok ⟨"main", "sales", "t1", [⟨"id", "INT", none⟩], TableTypeEnum.EXTERNAL,
        none, some "s3://bucket/tables/t1"⟩ :=
  (c7_external_storage_amended "main" "sales" "t1" [⟨"id", "INT", none⟩]
    none (some "s3://bucket/tables/t1")).2 (by decide) (by decide)

/-- Counterexample to claim C2: supplying exactly one of catalog and schema
is NOT a caller error.  With arguments `pipeline_id="p1", catalog="main"`
(schema omitted) the tool call succeeds — the envelope carries no `isError` —
and the outgoing request simply omits `target`; nothing fails. -/
theorem c2_counterexample_lone_catalog_succeeds :
    (update_pipeline_config_tool
        (fun k => if k = "pipeline_id" then some (.str "p1")
          else if k = "catalog" then some (.str "main") else none)
        (fun _ => .ok ())).isError = none
    ∧ update_tool_request
        (fun k => if k = "pipeline_id" then some (.str "p1")
          else if k = "catalog" then some (.str "main") else none) =
      .ok { pipeline_id := "p1", name := none, storage := none, target := none,
            libraries := none, serverless := none } :=
  ⟨rfl, rfl⟩

/-- Claim C2 as amended: the composite target is updated only when both
catalog and schema are supplied together; supplying exactly one of them is
silently ignored — no target is sent and no error is raised — rather than a
failure of the call. -/
theorem c2_target_requires_both_amended (pid : String)
    (name root_path catalog schema : Option String)
    (wnp : Option (List String)) (serverless : Option Bool) (c s : String) :
    (update_pipeline pid name root_path catalog none wnp serverless).target = none
    ∧ (update_pipeline pid name root_path none schema wnp serverless).target = none
    ∧ (c ≠ "" → s ≠ "" →
        (update_pipeline pid name root_path (some c) (some s) wnp serverless).target
          = some (c ++ "." ++ s)) := by
  refine ⟨?_, rfl, ?_⟩
  · cases catalog <;> rfl
  · intro h1 h2
    simp [update_pipeline, h1, h2]

/-- Witness for the amended C2: both parts supplied yields the composite
target. -/
theorem c2_target_requires_both_amended_witness :
    (update_pipeline "p1" none none (some "main") (some "sales") none none).target
      = some ("main" ++ "." ++ "sales") :=
  (c2_target_requires_both_amended "p1" none none none none none none
    "main" "sales").2.2 (by decide) (by decide)

/-- Counterexample to claim C3: the status-poll handler does not report a
completed dry run as "validation passed".  Its message is built by
`update_status_text` from the state string and identifiers alone (the handler
receives no dry-run information, so the wording for a completed validation
run and a completed refresh is produced by the same function from the same
data), and the message rendered for `COMPLETED` does not contain the wording
"validation passed" at all. -/
theorem c3_counterexample_completed_poll_not_validation_passed :
    strContains (update_status_text "COMPLETED" "p1" "u1" "") "validation passed"
      = false := by
  decide

/-- Claim C3 as amended: `validateOnly = true` is passed through to the remote
start-update call distinct from a normal run (the validate tool hard-codes
`validate_only=True`, the start tool hard-codes `validate_only=False`), and
the two start-time success messages are worded distinctly; but a subsequent
status poll returning COMPLETED is rendered by a handler that has no dry-run
information — its wording is identical for a dry run and a data refresh and
never contains "validation passed". -/
theorem c3_validate_only_passthrough_amended (args args2 : ArgMap) :
    (∀ r, validate_pipeline_tool_request args = .ok r → r.validate_only = true)
    ∧ (∀ r, start_pipeline_update_tool_request args2 = .ok r →
        r.validate_only = false)
    ∧ (validate_pipeline_success_text "p1" "u1"
        == start_update_success_text "p1" "u1" false) = false
    ∧ strContains (update_status_text "COMPLETED" "p1" "u1" "") "validation passed"
      = false := by
  refine ⟨?_, ?_, by decide, by decide⟩
  · intro r h
    cases hp : ValidatePipelineInput.parse args with
    | error es =>
        rw [validate_pipeline_tool_request, hp] at h
        exact absurd h (by simp [Except.map])
    | ok i =>
        rw [validate_pipeline_tool_request, hp] at h
        simp only [Except.map, Except.ok.injEq] at h
        rw [← h]; rfl
  · intro r h
    cases hp : StartPipelineUpdateInput.parse args2 with
    | error es =>
        rw [start_pipeline_update_tool_request, hp] at h
        exact absurd h (by simp [Except.map])
    | ok i =>
        rw [start_pipeline_update_tool_request, hp] at h
        simp only [Except.map, Except.ok.injEq] at h
        rw [← h]; rfl

/-- Witness for the amended C3: for a concrete argument mapping the request
sent by the validate tool has `validate_only = true`, and the one sent by the
start tool has `validate_only = false`. -/
theorem c3_validate_only_passthrough_amended_witness :
    (start_update "p1" none false none true).validate_only = true
    ∧ (start_update "p1" none false none false).validate_only = false :=
  ⟨(c3_validate_only_passthrough_amended
      (fun k => if k = "pipeline_id" then some (.str "p1") else none)
      (fun k => if k = "pipeline_id" then some (.str "p1") else none)).1
      (start_update "p1" none false none true) rfl,
   (c3_validate_only_passthrough_amended
      (fun k => if k = "pipeline_id" then some (.str "p1") else none)
      (fun k => if k = "pipeline_id" then some (.str "p1") else none)).2.1
      (start_update "p1" none false none false) rfl⟩

/-- Claim C9: the `start_pipeline_update` tool always starts the update with
`validate_only = false`; a `validate_only` key in the argument mapping is an
unknown field of the input model and is ignored — validation of the mapping
is unchanged by it — so a dry run can never be triggered through this tool. -/
theorem c9_start_update_never_validate_only (args : ArgMap) (v : PyValue) :
    StartPipelineUpdateInput.parse
        (fun k => if k = "validate_only" then some v else args k) =
      StartPipelineUpdateInput.parse args
    ∧ (∀ r, start_pipeline_update_tool_request args = .ok r →
        r.validate_only = false) := by
  constructor
  · have h1 : (fun k => if k = "validate_only" then some v else args k) "pipeline_id"
        = args "pipeline_id" := if_neg (by decide)
    have h2 : (fun k => if k = "validate_only" then some v else args k)
        "refresh_selection" = args "refresh_selection" := if_neg (by decide)
    have h3 : (fun k => if k = "validate_only" then some v else args k)
        "full_refresh" = args "full_refresh" := if_neg (by decide)
    have h4 : (fun k => if k = "validate_only" then some v else args k)
        "full_refresh_selection" = args "full_refresh_selection" := if_neg (by decide)
    simp only [StartPipelineUpdateInput.parse, parseReqStr, parseOptStrList,
      parseBoolDefault, h1, h2, h3, h4]
  · intro r h
    cases hp : StartPipelineUpdateInput.parse args with
    | error es =>
        rw [start_pipeline_update_tool_request, hp] at h
        exact absurd h (by simp [Except.map])
    | ok i =>
        rw [start_pipeline_update_tool_request, hp] at h
        simp only [Except.map, Except.ok.injEq] at h
        rw [← h]; rfl

/-- Witness for C9: a concrete mapping that does contain a
`validate_only: true` key still produces a request with
`validate_only = false`. -/
theorem c9_start_update_never_validate_only_witness :
    (start_update "p1" none false none false).validate_only = false :=
  (c9_start_update_never_validate_only
    (fun k => if k = "pipeline_id" then some (.str "p1")
      else if k = "validate_only" then some (.bool true) else none)
    (.bool true)).2 (start_update "p1" none false none false) rfl

/-- Claim C4: a tool invocation returns a well-formed envelope with
`isError = some true` exactly when the operation failed — a validation
failure is converted to the itemized error envelope, a collaborator failure
(a raised exception, entering the embedding as `Except.error`) is caught at
the handler boundary and converted to an error envelope — success envelopes
never carry `isError`, and the handler's result is always an envelope (its
`isError` is `some true` or absent, never anything else), so no raw fault
reaches the caller.  Shown for the validating handler
`update_pipeline_config_tool` and for the bare-boundary handler
`get_schema_tool`. -/
theorem c4_envelope_iserror_iff_failure (args : ArgMap)
    (collab : UpdateRequest → Except String Unit)
    (scollab : Option PyValue → Except String SchemaInfo) :
    ((update_pipeline_config_tool args collab).isError = some true ↔
      ((∃ es, UpdatePipelineInput.parse args = .error es) ∨
       (∃ i msg, UpdatePipelineInput.parse args = .ok i ∧
         collab (update_pipeline i.pipeline_id i.name i.root_path i.catalog
           i.schema i.workspace_notebook_paths i.serverless) = .error msg)))
    ∧ (∀ i, UpdatePipelineInput.parse args = .ok i →
        collab (update_pipeline i.pipeline_id i.name i.root_path i.catalog
          i.schema i.workspace_notebook_paths i.serverless) = .ok () →
        (update_pipeline_config_tool args collab).isError = none)
    ∧ (∀ es, UpdatePipelineInput.parse args = .error es →
        update_pipeline_config_tool args collab =
          MCPValidationError.to_mcp_response es)
    ∧ ((update_pipeline_config_tool args collab).isError = some true ∨
       (update_pipeline_config_tool args collab).isError = none)
    ∧ ((get_schema_tool args scollab).isError = some true ↔
       ∃ msg, scollab (args "full_schema_name") = .error msg) := by
  refine ⟨?_, ?_, ?_, ?_, ?_⟩
  · cases hp : UpdatePipelineInput.parse args with
    | error es =>
        constructor
        · intro _
          exact Or.inl ⟨es, rfl⟩
        · intro _
          simp [update_pipeline_config_tool, hp, MCPValidationError.to_mcp_response]
    | ok i =>
        cases hc : collab (update_pipeline i.pipeline_id i.name i.root_path
            i.catalog i.schema i.workspace_notebook_paths i.serverless) with
        | ok u =>
            constructor
            · intro hF
              simp [update_pipeline_config_tool, hp, hc] at hF
            · rintro (⟨es, he⟩ | ⟨i', msg, hi, hce⟩)
              · cases he
              · injection hi with hi
                subst hi
                rw [hc] at hce
                cases hce
        | error msg =>
            constructor
            · intro _
              exact Or.inr ⟨i, msg, rfl, hc⟩
            · intro _
              simp [update_pipeline_config_tool, hp, hc]
  · intro i hp hc
    simp [update_pipeline_config_tool, hp, hc]
  · intro es hp
    simp [update_pipeline_config_tool, hp]
  · cases hp : UpdatePipelineInput.parse args with
    | error es =>
        left
        simp [update_pipeline_config_tool, hp, MCPValidationError.to_mcp_response]
    | ok i =>
        cases hc : collab (update_pipeline i.pipeline_id i.name i.root_path
            i.catalog i.schema i.workspace_notebook_paths i.serverless) with
        | ok u => right; simp [update_pipeline_config_tool, hp, hc]
        | error msg => left; simp [update_pipeline_config_tool, hp, hc]
  · cases hs : scollab (args "full_schema_name") with
    | ok s =>
        constructor
        · intro hF
          simp [get_schema_tool, hs] at hF
        · rintro ⟨msg, hm⟩
          cases hm
    | error m =>
        constructor
        · intro _
          exact ⟨m, rfl⟩
        · intro _
          simp [get_schema_tool, hs]

/-- Witness for C4: a concrete invocation whose collaborator raises is
converted into an `isError` envelope. -/
theorem c4_envelope_iserror_iff_failure_witness :
    (update_pipeline_config_tool
        (fun k => if k = "pipeline_id" then some (.str "p1") else none)
        (fun _ => .error "remote failure")).isError = some true :=
  (c4_envelope_iserror_iff_failure
    (fun k => if k = "pipeline_id" then some (.str "p1") else none)
    (fun _ => .error "remote failure")
    (fun _ => .error "x")).1.mpr
    (Or.inr ⟨⟨"p1", none, none, none, none, none, none⟩, "remote failure", rfl, rfl⟩)
